import Mathlib

/-!
Shallow embedding of the suggestion-box subsystem of the ictForumBackend
repository: the Suggestion and Department mongoose models
(src/models/Suggestion.js, src/models/Department.js) and the route handlers
of src/routes/index.js.  Identifiers are Nat (Mongo ObjectIds), timestamps
are Nat, enumerated strings stay strings exactly as in the source.  HTTP
responses are modelled as `Resp`: `ok` carries the JSON payload, `err`
carries the HTTP status code and message, so the error taxonomy of the spec
maps to codes as the routes do (InvalidArgument = 400, Unauthorized = 401,
NotFound = 404, Conflict = 409, caught exceptions = 500).
-/

namespace IctForum

/-- src/models/Suggestion.js line 3. -/
def CATEGORIES : List String := ["academic", "administrative", "infrastructure", "other"]

/-- src/models/Suggestion.js line 4. -/
def STATUSES : List String := ["Received", "In Process", "Resolved"]

/-- MediaSchema, src/models/Suggestion.js lines 6-15. -/
structure Media where
  kind : String
  url : String
  filename : String
  mimetype : String
  size : Nat
deriving DecidableEq, Repr

/-- A stored Suggestion document, src/models/Suggestion.js lines 17-30.
`user` is the submitter ObjectId reference (none when absent or null);
`createdAt` and `updatedAt` come from the `timestamps: true` option. -/
structure Suggestion where
  id : Nat
  user : Option String
  anonymous : Bool
  category : String
  description : String
  status : String
  assignedDepartment : Option String
  assignedTo : Option String
  actionTaken : Option String
  media : List Media
  createdAt : Nat
  updatedAt : Nat
deriving DecidableEq, Repr

/-- A stored Department document, src/models/Department.js.  The email
format check of the schema is not modelled (no claim touches it). -/
structure Department where
  id : Nat
  name : String
  description : Option String
  head : Option String
  email : Option String
  phone : Option String
  isActive : Bool
deriving DecidableEq, Repr

/-- The document store visible to the suggestion routes. -/
structure Store where
  suggestions : List Suggestion
  departments : List Department
deriving DecidableEq, Repr

/-- JavaScript truthiness of an optional string field: absent, or present
and empty, is falsy; any other string is truthy. -/
def otruthy : Option String → Bool
  | none => false
  | some s => s ≠ ""

/-- src/routes/index.js line 152:
`String(req.body?.anonymous || 'true') === 'true'`. -/
def parseAnonymous (v : Option String) : Bool :=
  (match v with
   | none => "true"
   | some s => if s = "" then "true" else s) = "true"

/-- `toPublicJSON`, src/models/Suggestion.js lines 32-39: the serialized
document with the `__v` marker dropped and, when `anonymous` is set, the
`user` reference deleted. -/
def toPublicJSON (s : Suggestion) : Suggestion :=
  { s with user := if s.anonymous then none else s.user }

/-- An HTTP route outcome: success payload, or status code plus message. -/
inductive Resp (α : Type) where
  | ok (payload : α)
  | err (code : Nat) (message : String)
deriving DecidableEq, Repr

/-- `Department.findOne({ name, isActive: true })` as used by the routes
(src/routes/index.js lines 166 and 331) and by the pre-save hook. -/
def findActiveDepartment (name : String) (st : Store) : Option Department :=
  st.departments.find? (fun d => d.name == name && d.isActive)

/-- The multipart body of POST /api/suggestions; every field arrives as a
string when present. -/
structure CreateBody where
  category : Option String
  description : Option String
  anonymous : Option String
  assignedDepartment : Option String
  actionTaken : Option String
deriving DecidableEq, Repr

/-- The document `Suggestion.create` persists on the success path of
POST /api/suggestions, src/routes/index.js lines 187-195: `user` only
when not anonymous, status defaulted by the schema to `Received`,
`actionTaken: actionTaken || null`. -/
def mkCreatedDoc (body : CreateBody) (user : Option String) (files : List Media)
    (freshId now : Nat) : Suggestion :=
  { id := freshId
    user := if parseAnonymous body.anonymous then none else user
    anonymous := parseAnonymous body.anonymous
    category := body.category.getD ""
    description := body.description.getD ""
    status := "Received"
    assignedDepartment := body.assignedDepartment
    assignedTo := none
    actionTaken := if otruthy body.actionTaken then body.actionTaken else none
    media := files
    createdAt := now
    updatedAt := now }

/-- POST /api/suggestions, src/routes/index.js lines 149-200.  `user` is
`req.user` (the identity resolved by the auth middleware, when any);
`files` the uploaded media already mapped to Media records; `freshId` and
`now` the ObjectId and timestamp the store assigns.  Checks appear in
source order; the description length bounds live in the mongoose schema
(minlength 10, maxlength 5000), so their violation raises a
ValidationError that the route's catch turns into a 500, not a 400.  The
pre-save department hook re-checks the same predicate the route already
checked, so it adds no further case. -/
def createSuggestion (body : CreateBody) (user : Option String) (files : List Media)
    (freshId now : Nat) (st : Store) : Resp Suggestion × Store :=
  if ¬ (otruthy body.category ∧ otruthy body.description) then
    (.err 400 "category and description are required", st)
  else if ¬ CATEGORIES.contains (body.category.getD "") then
    (.err 400 "Invalid category", st)
  else if ¬ parseAnonymous body.anonymous ∧ user = none then
    (.err 401 "Authentication required for non-anonymous submission", st)
  else if otruthy body.assignedDepartment ∧
      findActiveDepartment (body.assignedDepartment.getD "") st = none then
    (.err 400 "Invalid or inactive department", st)
  else if otruthy body.actionTaken ∧ (body.actionTaken.getD "").length > 20000 then
    (.err 400 "Action taken cannot exceed 20000 characters", st)
  else if (body.description.getD "").length < 10 ∨ (body.description.getD "").length > 5000 then
    (.err 500 "Failed to create suggestion", st)
  else
    (.ok (toPublicJSON (mkCreatedDoc body user files freshId now)),
     { st with suggestions := st.suggestions ++ [mkCreatedDoc body user files freshId now] })

/-- Descending order on `updatedAt`: most recently updated first
(Mongo `sort({ updatedAt: -1 })`). -/
def updGe (a b : Suggestion) : Prop := b.updatedAt ≤ a.updatedAt

instance : DecidableRel updGe := fun a b => Nat.decLe b.updatedAt a.updatedAt

instance : IsTotal Suggestion updGe := ⟨fun a b => Nat.le_total b.updatedAt a.updatedAt⟩

instance : IsTrans Suggestion updGe := ⟨fun _ _ _ hab hbc => Nat.le_trans hbc hab⟩

/-- Descending order on `createdAt` (Mongo `sort({ createdAt: -1 })`). -/
def createdGe (a b : Suggestion) : Prop := b.createdAt ≤ a.createdAt

instance : DecidableRel createdGe := fun a b => Nat.decLe b.createdAt a.createdAt

instance : IsTotal Suggestion createdGe := ⟨fun a b => Nat.le_total b.createdAt a.createdAt⟩

instance : IsTrans Suggestion createdGe := ⟨fun _ _ _ hab hbc => Nat.le_trans hbc hab⟩

/-- GET /api/suggestions/my, src/routes/index.js lines 203-210: the
caller's own suggestions, newest first, each through `toPublicJSON`. -/
def mySuggestions (userId : String) (st : Store) : List Suggestion :=
  (List.insertionSort createdGe
    (st.suggestions.filter (fun s => s.user == some userId))).map toPublicJSON

/-- The minimal tracking projection of GET /api/suggestions/track/:id,
src/routes/index.js lines 219-226: no description, media, department or
submitter field exists in it at all. -/
structure TrackView where
  id : Nat
  status : String
  category : String
  actionTaken : Option String
  createdAt : Nat
  updatedAt : Nat
deriving DecidableEq, Repr

/-- GET /api/suggestions/track/:id, src/routes/index.js lines 213-231. -/
def trackSuggestion (id : Nat) (st : Store) : Resp TrackView :=
  match st.suggestions.find? (fun s => s.id == id) with
  | none => .err 404 "Not found"
  | some s =>
      .ok { id := s.id, status := s.status, category := s.category,
            actionTaken := s.actionTaken, createdAt := s.createdAt,
            updatedAt := s.updatedAt }

/-- A paginated listing response body. -/
structure PageOut where
  page : Nat
  limit : Nat
  total : Nat
  suggestions : List Suggestion
deriving DecidableEq, Repr

/-- The resolved suggestions in response order (filter then stable sort,
most recently updated first). -/
def resolvedSorted (st : Store) : List Suggestion :=
  List.insertionSort updGe (st.suggestions.filter (fun s => s.status == "Resolved"))

/-- GET /api/public/resolved, src/routes/index.js lines 234-254.  The raw
query integers are clamped exactly as the source does: page to at least 1,
limit to 1..100. -/
def listResolvedPublic (pageQ limitQ : Nat) (st : Store) : PageOut :=
  let page := max pageQ 1
  let limit := min (max limitQ 1) 100
  let skip := (page - 1) * limit
  { page := page
    limit := limit
    total := (st.suggestions.filter (fun s => s.status == "Resolved")).length
    suggestions := (((resolvedSorted st).drop skip).take limit).map toPublicJSON }

/-- Character-list prefix test, used to express the case-insensitive
substring matching of the `$regex ... $options: 'i'` admin filter. -/
def leadsWith : List Char → List Char → Bool
  | [], _ => true
  | _ :: _, [] => false
  | a :: p, b :: l => a == b && leadsWith p l

/-- Case-insensitive substring containment (the admin free-text query is
treated as a plain pattern). -/
def containsCI (hay needle : String) : Bool :=
  (List.range (hay.toLower.data.length + 1)).any
    (fun i => leadsWith needle.toLower.data (hay.toLower.data.drop i))

/-- The query string of GET /api/admin/suggestions. -/
structure AdminQuery where
  category : Option String
  status : Option String
  assignedDepartment : Option String
  q : Option String
  fromDate : Option Nat
  toDate : Option Nat
  page : Nat
  limit : Nat
deriving DecidableEq, Repr

/-- The Mongo filter built by GET /api/admin/suggestions,
src/routes/index.js lines 276-291, as a predicate on documents. -/
def matchesAdminFilter (qy : AdminQuery) (s : Suggestion) : Bool :=
  (if otruthy qy.category ∧ CATEGORIES.contains (qy.category.getD "")
   then s.category == qy.category.getD "" else true) &&
  (if otruthy qy.status ∧ STATUSES.contains (qy.status.getD "")
   then s.status == qy.status.getD "" else true) &&
  (if otruthy qy.assignedDepartment
   then s.assignedDepartment == some (qy.assignedDepartment.getD "") else true) &&
  (match qy.fromDate with | some f => decide (f ≤ s.createdAt) | none => true) &&
  (match qy.toDate with | some t => decide (s.createdAt ≤ t) | none => true) &&
  (if otruthy qy.q
   then containsCI s.description (qy.q.getD "") ||
        (match s.actionTaken with
         | some a => containsCI a (qy.q.getD "")
         | none => false)
   else true)

/-- GET /api/admin/suggestions, src/routes/index.js lines 259-307: filter,
sort newest first, paginate (limit clamped to 1..200), project through
`toPublicJSON`.  The route carries no auth middleware. -/
def adminListSuggestions (qy : AdminQuery) (st : Store) : PageOut :=
  let page := max qy.page 1
  let limit := min (max qy.limit 1) 200
  let skip := (page - 1) * limit
  let matching := st.suggestions.filter (matchesAdminFilter qy)
  { page := page
    limit := limit
    total := matching.length
    suggestions :=
      (((List.insertionSort createdGe matching).drop skip).take limit).map toPublicJSON }

/-- The body of PATCH /api/admin/suggestions/:id after
`pick(req.body, ['status','category','assignedDepartment','assignedTo','actionTaken'])`. -/
structure PatchBody where
  status : Option String
  category : Option String
  assignedDepartment : Option String
  assignedTo : Option String
  actionTaken : Option String
deriving DecidableEq, Repr

/-- `findByIdAndUpdate(id, updates)` applied to one document: every field
present in the body is written as given (no validators run on the update),
and `timestamps: true` refreshes `updatedAt`. -/
def applyPatch (body : PatchBody) (now : Nat) (s : Suggestion) : Suggestion :=
  { s with
    status := body.status.getD s.status
    category := body.category.getD s.category
    assignedDepartment :=
      match body.assignedDepartment with
      | some v => some v
      | none => s.assignedDepartment
    assignedTo :=
      match body.assignedTo with
      | some v => some v
      | none => s.assignedTo
    actionTaken :=
      match body.actionTaken with
      | some v => some v
      | none => s.actionTaken
    updatedAt := now }

/-- PATCH /api/admin/suggestions/:id, src/routes/index.js lines 310-343.
Checks in source order: status enum, category enum, actionTaken length
(the source compares against 2000 while its message says 20000), and the
active-department lookup — all before the document is looked up.  The
route carries no auth middleware. -/
def adminPatchSuggestion (id : Nat) (body : PatchBody) (now : Nat) (st : Store) :
    Resp Suggestion × Store :=
  if otruthy body.status ∧ ¬ STATUSES.contains (body.status.getD "") then
    (.err 400 "Invalid status", st)
  else if otruthy body.category ∧ ¬ CATEGORIES.contains (body.category.getD "") then
    (.err 400 "Invalid category", st)
  else if otruthy body.actionTaken ∧ (body.actionTaken.getD "").length > 2000 then
    (.err 400 "Action taken cannot exceed 20000 characters", st)
  else if otruthy body.assignedDepartment ∧
      findActiveDepartment (body.assignedDepartment.getD "") st = none then
    (.err 400 "Invalid or inactive department", st)
  else
    match st.suggestions.find? (fun s => s.id == id) with
    | none => (.err 404 "Not found", st)
    | some s =>
        let s2 := applyPatch body now s
        (.ok (toPublicJSON s2),
         { st with suggestions := st.suggestions.map (fun t => if t.id == id then s2 else t) })

/-- DELETE /api/admin/suggestions/:id, src/routes/index.js lines 345-355.
The route carries no auth middleware. -/
def adminDeleteSuggestion (id : Nat) (st : Store) : Resp String × Store :=
  match st.suggestions.find? (fun s => s.id == id) with
  | none => (.err 404 "Not found", st)
  | some _ =>
      (.ok "Deleted", { st with suggestions := st.suggestions.filter (fun s => ¬ s.id == id) })

/-- The body of the admin department create/update routes. -/
structure DeptBody where
  name : Option String
  description : Option String
  head : Option String
  email : Option String
  phone : Option String
  isActive : Option Bool
deriving DecidableEq, Repr

/-- POST /api/admin/departments, src/routes/index.js lines 402-432: name
required, exact-match conflict check on the trimmed name, then creation
with `isActive: isActive !== false`.  Schema validation (name length
2..100) failing inside `create` is caught as a 500. -/
def adminCreateDepartment (body : DeptBody) (freshId : Nat) (st : Store) :
    Resp Department × Store :=
  if ¬ otruthy body.name then
    (.err 400 "Department name is required", st)
  else
    let nm := (body.name.getD "").trim
    if st.departments.any (fun d => d.name == nm) then
      (.err 409 "Department name already exists", st)
    else if nm.length < 2 ∨ nm.length > 100 then
      (.err 500 "Failed to create department", st)
    else
      let dept : Department :=
        { id := freshId
          name := nm
          description := body.description
          head := body.head
          email := body.email
          phone := body.phone
          isActive := body.isActive ≠ some false }
      (.ok dept, { st with departments := st.departments ++ [dept] })

/-- PUT /api/admin/departments/:id, src/routes/index.js lines 450-476:
trim and conflict-check a truthy new name, then `findByIdAndUpdate` with
`runValidators: true` (name length is re-validated; a failure surfaces as
500 through the catch). -/
def adminUpdateDepartment (id : Nat) (body : DeptBody) (st : Store) :
    Resp Department × Store :=
  let newName := (body.name.map (fun v => if v ≠ "" then v.trim else v))
  if otruthy body.name ∧
      st.departments.any (fun d => d.name == (newName.getD "") && ¬ d.id == id) then
    (.err 409 "Department name already exists", st)
  else if (match newName with
           | some v => decide (v.length < 2 ∨ v.length > 100)
           | none => false) then
    (.err 500 "Failed to update department", st)
  else
    match st.departments.find? (fun d => d.id == id) with
    | none => (.err 404 "Department not found", st)
    | some d =>
        let d2 : Department :=
          { d with
            name := newName.getD d.name
            description :=
              match body.description with | some v => some v | none => d.description
            head := match body.head with | some v => some v | none => d.head
            email := match body.email with | some v => some v | none => d.email
            phone := match body.phone with | some v => some v | none => d.phone
            isActive := body.isActive.getD d.isActive }
        (.ok d2,
         { st with departments := st.departments.map (fun t => if t.id == id then d2 else t) })

/-- DELETE /api/admin/departments/:id, src/routes/index.js lines 479-503.
The guard count is `Suggestion.countDocuments({ assignedDepartment:
{ $exists: true, $ne: null } })`: it counts every suggestion carrying any
non-null assigned department, not only those naming this department.
With a positive count the department is deactivated and a 200 success is
returned; only with a zero count is it removed. -/
def adminDeleteDepartment (id : Nat) (st : Store) : Resp String × Store :=
  let referencingCount := (st.suggestions.filter (fun s => s.assignedDepartment.isSome)).length
  match st.departments.find? (fun d => d.id == id) with
  | none => (.err 404 "Department not found", st)
  | some d =>
      if referencingCount > 0 then
        let d2 := { d with isActive := false }
        (.ok "Department deactivated (has associated suggestions)",
         { st with departments := st.departments.map (fun t => if t.id == id then d2 else t) })
      else
        (.ok "Department deleted permanently",
         { st with departments := st.departments.filter (fun t => ¬ t.id == id) })

/-- The identity resolved from a bearer token by the auth middleware. -/
structure Cred where
  subjectId : String
  role : String
deriving DecidableEq, Repr

/-- `requireRole` from src/middleware/auth.js: 401 without a resolved
user, 403 when the role is not in the allowed set, otherwise pass. -/
def requireRole (allowed : List String) (user : Option Cred) : Option (Nat × String) :=
  match user with
  | none => some (401, "Unauthorized")
  | some u => if allowed.contains u.role then none else some (403, "Forbidden")

/-- PATCH /api/admin/suggestions/:id as registered in src/routes/index.js
line 310: the handler chain contains neither `verifyJWT` nor
`requireRole`, so the request credential is never consulted. -/
def adminPatchRoute (_cred : Option Cred) (id : Nat) (body : PatchBody) (now : Nat)
    (st : Store) : Resp Suggestion × Store :=
  adminPatchSuggestion id body now st

/-- DELETE /api/admin/departments/:id as registered in
src/routes/index.js line 479: no auth middleware in the chain. -/
def adminDeleteDepartmentRoute (_cred : Option Cred) (id : Nat) (st : Store) :
    Resp String × Store :=
  adminDeleteDepartment id st

/-! ## Concrete fixtures used by witnesses and counterexamples -/

/-- A non-anonymous suggestion assigned to the Facilities department. -/
def s1 : Suggestion :=
  { id := 1, user := some "u1", anonymous := false, category := "academic",
    description := "long enough text", status := "Received",
    assignedDepartment := some "Facilities", assignedTo := none,
    actionTaken := none, media := [], createdAt := 1, updatedAt := 1 }

/-- An anonymous, resolved suggestion whose stored submitter reference is
set, exercising the visibility filter. -/
def sAnonResolved : Suggestion :=
  { id := 2, user := some "u2", anonymous := true, category := "other",
    description := "another long text", status := "Resolved",
    assignedDepartment := none, assignedTo := none,
    actionTaken := some "done", media := [], createdAt := 2, updatedAt := 3 }

/-- An active department named Facilities. -/
def dep1 : Department :=
  { id := 1, name := "Facilities", description := none, head := none,
    email := none, phone := none, isActive := true }

def sampleStore : Store := { suggestions := [s1, sAnonResolved], departments := [dep1] }

/-- A valid submission body with a 10-character description. -/
def body10 : CreateBody :=
  { category := some "academic", description := some "abcdefghij",
    anonymous := none, assignedDepartment := none, actionTaken := none }

/-- A submission body with a 9-character description. -/
def body9 : CreateBody :=
  { category := some "academic", description := some "abcdefghi",
    anonymous := none, assignedDepartment := none, actionTaken := none }

/-- A patch that supplies an empty status value. -/
def patchEmptyStatus : PatchBody :=
  { status := some "", category := none, assignedDepartment := none,
    assignedTo := none, actionTaken := none }

/-- A patch naming a department that does not exist. -/
def patchBadDept : PatchBody :=
  { status := none, category := none, assignedDepartment := some "Nope",
    assignedTo := none, actionTaken := none }

/-- A patch moving the status to In Process. -/
def patchInProcess : PatchBody :=
  { status := some "In Process", category := none, assignedDepartment := none,
    assignedTo := none, actionTaken := none }

/-! ## Helper lemmas -/

theorem toPublicJSON_user_of_anonymous (s : Suggestion)
    (h : (toPublicJSON s).anonymous = true) : (toPublicJSON s).user = none := by
  simp only [toPublicJSON] at h ⊢
  rw [h]
  simp

theorem toPublicJSON_status (s : Suggestion) : (toPublicJSON s).status = s.status := rfl

/-- Inversion of the create handler: a success response is exactly the
public projection of the persisted document, appended to the store. -/
theorem createSuggestion_ok {body : CreateBody} {user : Option String} {files : List Media}
    {freshId now : Nat} {st : Store} {v : Suggestion} {st2 : Store}
    (h : createSuggestion body user files freshId now st = (.ok v, st2)) :
    v = toPublicJSON (mkCreatedDoc body user files freshId now) ∧
    st2 = { st with suggestions := st.suggestions ++ [mkCreatedDoc body user files freshId now] } := by
  unfold createSuggestion at h
  split at h
  · simp at h
  · split at h
    · simp at h
    · split at h
      · simp at h
      · split at h
        · simp at h
        · split at h
          · simp at h
          · split at h
            · simp at h
            · obtain ⟨h1, h2⟩ := Prod.mk.injEq .. ▸ h
              exact ⟨(Resp.ok.injEq .. ▸ h1).symm, h2.symm⟩

/-- Inversion of the patch handler: a success response comes from a found
document, patched, projected, and written back in place. -/
theorem adminPatchSuggestion_ok {id : Nat} {body : PatchBody} {now : Nat} {st : Store}
    {v : Suggestion} {st2 : Store}
    (h : adminPatchSuggestion id body now st = (.ok v, st2)) :
    ∃ s, st.suggestions.find? (fun t => t.id == id) = some s ∧
      v = toPublicJSON (applyPatch body now s) ∧
      st2 = { st with suggestions :=
                st.suggestions.map (fun t => if t.id == id then applyPatch body now s else t) } := by
  unfold adminPatchSuggestion at h
  split at h
  · simp at h
  · split at h
    · simp at h
    · split at h
      · simp at h
      · split at h
        · simp at h
        · split at h
          · simp_all
          · rename_i s hfind
            obtain ⟨h1, h2⟩ := Prod.mk.injEq .. ▸ h
            exact ⟨s, hfind, (Resp.ok.injEq .. ▸ h1).symm, h2.symm⟩

/-! ## Claims -/

/-- C1: for every suggestion whose anonymous flag is true, the stored
submitter reference (`user`) is absent from every read projection: the
creation response, the owner's list (GET /api/suggestions/my), the public
resolved list, the admin list, and the admin single-record view returned
by PATCH — regardless of the requester.  (The public track view cannot
carry it at all: `TrackView` has no user field.) -/
theorem anonymity_never_exposed (st : Store) :
    (∀ body user files freshId now v st2,
        createSuggestion body user files freshId now st = (.ok v, st2) →
        v.anonymous = true → v.user = none)
    ∧ (∀ uid v, v ∈ mySuggestions uid st → v.anonymous = true → v.user = none)
    ∧ (∀ p l v, v ∈ (listResolvedPublic p l st).suggestions →
        v.anonymous = true → v.user = none)
    ∧ (∀ qy v, v ∈ (adminListSuggestions qy st).suggestions →
        v.anonymous = true → v.user = none)
    ∧ (∀ id body now v st2,
        adminPatchSuggestion id body now st = (.ok v, st2) →
        v.anonymous = true → v.user = none) := by
  refine ⟨?_, ?_, ?_, ?_, ?_⟩
  · intro body user files freshId now v st2 h hanon
    obtain ⟨hv, -⟩ := createSuggestion_ok h
    subst hv
    exact toPublicJSON_user_of_anonymous _ hanon
  · intro uid v hv hanon
    obtain ⟨s, -, hs⟩ := List.mem_map.mp hv
    subst hs
    exact toPublicJSON_user_of_anonymous _ hanon
  · intro p l v hv hanon
    obtain ⟨s, -, hs⟩ := List.mem_map.mp hv
    subst hs
    exact toPublicJSON_user_of_anonymous _ hanon
  · intro qy v hv hanon
    obtain ⟨s, -, hs⟩ := List.mem_map.mp hv
    subst hs
    exact toPublicJSON_user_of_anonymous _ hanon
  · intro id body now v st2 h hanon
    obtain ⟨s, -, hv, -⟩ := adminPatchSuggestion_ok h
    subst hv
    exact toPublicJSON_user_of_anonymous _ hanon

/-- Witness for C1 at a concrete store: the anonymous resolved suggestion
appears in the public resolved listing with no user reference. -/
theorem anonymity_never_exposed_witness :
    (toPublicJSON sAnonResolved).user = none :=
  (anonymity_never_exposed sampleStore).2.2.1 1 10 (toPublicJSON sAnonResolved)
    (by decide) (by decide)

/-- C2: an update naming a department (a non-empty `assignedDepartment`
value) that does not exist as an active department fails with a 400
(InvalidArgument) response, and the store — in particular the suggestion
— is left completely unchanged. -/
theorem patch_invalid_department_rejected (id : Nat) (body : PatchBody) (now : Nat)
    (st : Store) (hdept : otruthy body.assignedDepartment = true)
    (hmiss : findActiveDepartment (body.assignedDepartment.getD "") st = none) :
    (∃ msg, (adminPatchSuggestion id body now st).1 = .err 400 msg)
    ∧ (adminPatchSuggestion id body now st).2 = st := by
  unfold adminPatchSuggestion
  split
  · exact ⟨⟨_, rfl⟩, rfl⟩
  · split
    · exact ⟨⟨_, rfl⟩, rfl⟩
    · split
      · exact ⟨⟨_, rfl⟩, rfl⟩
      · split
        · exact ⟨⟨_, rfl⟩, rfl⟩
        · rename_i hcond
          exact absurd ⟨hdept, hmiss⟩ hcond

/-- Witness for C2: patching suggestion 1 with the nonexistent department
name Nope is rejected with a 400 and the store is untouched. -/
theorem patch_invalid_department_rejected_witness :
    (∃ msg, (adminPatchSuggestion 1 patchBadDept 7 sampleStore).1 = .err 400 msg)
    ∧ (adminPatchSuggestion 1 patchBadDept 7 sampleStore).2 = sampleStore :=
  patch_invalid_department_rejected 1 patchBadDept 7 sampleStore (by decide) (by decide)

/-- The update body that deactivates a department (PUT with
`{ isActive: false }`), the code's notion of `deactivate`. -/
def deactivateBody : DeptBody :=
  { name := none, description := none, head := none, email := none,
    phone := none, isActive := some false }

theorem filter_length_pos_iff_any {α : Type} (p : α → Bool) (l : List α) :
    0 < (l.filter p).length ↔ l.any p = true := by
  induction l with
  | nil => simp
  | cons a l ih => by_cases h : p a <;> simp [h, ih]

theorem find?_replace {l : List Department} {id : Nat} {d d2 : Department}
    (hd2 : (d2.id == id) = true)
    (h : l.find? (fun t => t.id == id) = some d) :
    (l.map (fun t => if t.id == id then d2 else t)).find? (fun t => t.id == id) = some d2 := by
  induction l with
  | nil => simp at h
  | cons a l ih =>
    rw [List.map_cons]
    by_cases ha : (a.id == id) = true
    · rw [if_pos ha]
      exact List.find?_cons_of_pos _ hd2
    · have ha' : (a.id == id) = false := by simpa using ha
      rw [if_neg ha]
      simp only [List.find?_cons, ha'] at h ⊢
      exact ih h

theorem replace_map_idem (l : List Department) (id : Nat) (d2 : Department) :
    (l.map (fun t => if t.id == id then d2 else t)).map
        (fun t => if t.id == id then d2 else t)
      = l.map (fun t => if t.id == id then d2 else t) := by
  rw [List.map_map]
  have hf : ((fun t => if t.id == id then d2 else t) ∘ (fun t => if t.id == id then d2 else t))
      = (fun (t : Department) => if t.id == id then d2 else t) := by
    funext t
    by_cases h : (t.id == id) = true <;> simp [Function.comp, h]
  rw [hf]

/-- Evaluating the department update route on the deactivation body: the
found department is written back with `isActive := false`. -/
theorem deactivate_via_update (st : Store) (id : Nat) (d : Department)
    (hfind : st.departments.find? (fun t => t.id == id) = some d) :
    adminUpdateDepartment id deactivateBody st
      = (.ok { d with isActive := false },
         { st with departments := st.departments.map (fun t => if t.id == id then { d with isActive := false } else t) }) := by
  unfold adminUpdateDepartment
  rw [hfind]
  rfl

/-- Counterexample for C3: deleting the Facilities department while a
suggestion references it does NOT fail with Conflict (409) — the route
answers 200 with a deactivation message and keeps the (now inactive)
department. -/
theorem delete_referenced_department_not_conflict :
    (adminDeleteDepartment 1 sampleStore).1
      = .ok "Department deactivated (has associated suggestions)"
    ∧ (∀ msg, (adminDeleteDepartment 1 sampleStore).1 ≠ .err 409 msg)
    ∧ (adminDeleteDepartment 1 sampleStore).2.departments
      = [{ dep1 with isActive := false }] := by
  have h1 : (adminDeleteDepartment 1 sampleStore).1
      = .ok "Department deactivated (has associated suggestions)" := by decide
  refine ⟨h1, ?_, by decide⟩
  intro msg hmsg
  rw [h1] at hmsg
  exact Resp.noConfusion hmsg

/-- C3 as amended: deleting an existing department deactivates it (with a
success response, not a Conflict) whenever ANY suggestion carries a
non-null assigned department — the guard does not check which department
— and removes nothing; it hard-deletes the department only when no
suggestion carries any assigned department.  Deactivation (update with
isActive false) succeeds on an existing department and is idempotent. -/
theorem department_delete_soft_or_hard (id : Nat) (st : Store) (d : Department)
    (hfind : st.departments.find? (fun t => t.id == id) = some d) :
    (st.suggestions.any (fun s => s.assignedDepartment.isSome) = true →
       adminDeleteDepartment id st =
         (.ok "Department deactivated (has associated suggestions)",
          { st with departments := st.departments.map (fun t => if t.id == id then { d with isActive := false } else t) }))
    ∧ (st.suggestions.any (fun s => s.assignedDepartment.isSome) = false →
       adminDeleteDepartment id st =
         (.ok "Department deleted permanently",
          { st with departments := st.departments.filter (fun t => ¬ t.id == id) }))
    ∧ (adminUpdateDepartment id deactivateBody st).1 = .ok { d with isActive := false }
    ∧ (adminUpdateDepartment id deactivateBody
          (adminUpdateDepartment id deactivateBody st).2).2
        = (adminUpdateDepartment id deactivateBody st).2 := by
  have hdid : (d.id == id) = true := by simpa using List.find?_some hfind
  refine ⟨?_, ?_, ?_, ?_⟩
  · intro hany
    have hpos : 0 < (st.suggestions.filter (fun s => s.assignedDepartment.isSome)).length :=
      (filter_length_pos_iff_any _ _).mpr hany
    simp only [adminDeleteDepartment, hfind]
    rw [if_pos hpos]
  · intro hnone
    have hzero : ¬ 0 < (st.suggestions.filter (fun s => s.assignedDepartment.isSome)).length := by
      rw [filter_length_pos_iff_any, hnone]
      simp
    simp only [adminDeleteDepartment, hfind]
    rw [if_neg hzero]
  · rw [deactivate_via_update st id d hfind]
  · have hdid2 : (({ d with isActive := false } : Department).id == id) = true := hdid
    have h2 : (st.departments.map (fun t => if t.id == id then { d with isActive := false } else t)).find? (fun t => t.id == id)
        = some { d with isActive := false } := find?_replace hdid2 hfind
    rw [deactivate_via_update st id d hfind]
    show (adminUpdateDepartment id deactivateBody { st with departments := st.departments.map (fun t => if t.id == id then { d with isActive := false } else t) }).2
      = ({ st with departments := st.departments.map (fun t => if t.id == id then { d with isActive := false } else t) } : Store)
    rw [deactivate_via_update _ id { d with isActive := false } h2]
    show ({ st with departments := (st.departments.map (fun t => if t.id == id then { d with isActive := false } else t)).map (fun t => if t.id == id then { d with isActive := false } else t) } : Store) = _
    rw [replace_map_idem]

/-- Witness for C3 at the concrete store: deleting the referenced
Facilities department deactivates it and answers success. -/
theorem department_delete_soft_or_hard_witness :
    adminDeleteDepartment 1 sampleStore =
      (.ok "Department deactivated (has associated suggestions)",
       { sampleStore with departments := sampleStore.departments.map (fun t => if t.id == 1 then { dep1 with isActive := false } else t) }) :=
  (department_delete_soft_or_hard 1 sampleStore dep1 (by decide)).1 (by decide)

/-- Every suggestion in the store carries one of the three enumerated
status values. -/
def statusesOk (st : Store) : Prop := ∀ s ∈ st.suggestions, s.status ∈ STATUSES

/-- Counterexample for C4: PATCH validates the status only when the value
is truthy, and `findByIdAndUpdate` runs no schema validators, so a patch
supplying an empty status string succeeds and writes a status outside the
enumerated set. -/
theorem patch_empty_status_escapes_enum :
    adminPatchSuggestion 1 patchEmptyStatus 7 sampleStore
      = (.ok (toPublicJSON { s1 with status := "", updatedAt := 7 }),
         { sampleStore with suggestions := [{ s1 with status := "", updatedAt := 7 }, sAnonResolved] })
    ∧ ({ s1 with status := "", updatedAt := 7 } : Suggestion).status ∉ STATUSES := by
  constructor
  · decide
  · decide

/-- C4 as amended: every successfully created suggestion has status
Received; creation and deletion preserve the status-enum invariant; an
update preserves it whenever the supplied status value is not the empty
string (a non-empty status is validated against the enum, an absent one
leaves the field alone — only the empty string bypasses both). -/
theorem status_received_and_enum_preserved :
    (∀ body user files freshId now st v st2,
        createSuggestion body user files freshId now st = (.ok v, st2) →
        v.status = "Received"
        ∧ st2.suggestions = st.suggestions ++ [mkCreatedDoc body user files freshId now]
        ∧ (mkCreatedDoc body user files freshId now).status = "Received")
    ∧ (∀ body user files freshId now st, statusesOk st →
        statusesOk (createSuggestion body user files freshId now st).2)
    ∧ (∀ id body now st, body.status ≠ some "" → statusesOk st →
        statusesOk (adminPatchSuggestion id body now st).2)
    ∧ (∀ id st, statusesOk st → statusesOk (adminDeleteSuggestion id st).2) := by
  refine ⟨?_, ?_, ?_, ?_⟩
  · intro body user files freshId now st v st2 h
    obtain ⟨hv, hst⟩ := createSuggestion_ok h
    subst hv
    exact ⟨rfl, by rw [hst], rfl⟩
  · intro body user files freshId now st hok
    unfold createSuggestion
    split
    · exact hok
    · split
      · exact hok
      · split
        · exact hok
        · split
          · exact hok
          · split
            · exact hok
            · split
              · exact hok
              · intro s hs
                rcases List.mem_append.mp hs with hs1 | hs2
                · exact hok s hs1
                · rw [List.mem_singleton.mp hs2]
                  show ("Received" : String) ∈ STATUSES
                  decide
  · intro id body now st hne hok
    unfold adminPatchSuggestion
    split
    · exact hok
    · split
      · exact hok
      · split
        · exact hok
        · split
          · exact hok
          · rename_i h1 h2 h3 h4
            cases hfind : st.suggestions.find? (fun t => t.id == id) with
            | none => simpa [hfind] using hok
            | some s =>
              simp only [hfind]
              intro t ht
              obtain ⟨a, ha, hat⟩ := List.mem_map.mp ht
              subst hat
              by_cases hid : (a.id == id) = true
              · rw [if_pos hid]
                show (applyPatch body now s).status ∈ STATUSES
                unfold applyPatch
                cases hbs : body.status with
                | none =>
                  simpa [hbs] using hok s (List.mem_of_find?_eq_some hfind)
                | some v =>
                  have hvne : v ≠ "" := by
                    intro hcon
                    exact hne (by rw [hbs, hcon])
                  have hcontain : STATUSES.contains v = true := by
                    by_contra hc
                    exact h1 ⟨by simpa [otruthy, hbs] using hvne, by simpa [hbs] using hc⟩
                  have hv : v ∈ STATUSES := by simpa using hcontain
                  simpa [hbs] using hv
              · rw [if_neg hid]
                exact hok a ha
  · intro id st hok
    unfold adminDeleteSuggestion
    cases hfind : st.suggestions.find? (fun t => t.id == id) with
    | none => simpa [hfind] using hok
    | some s =>
      simp only [hfind]
      intro t ht
      exact hok t (List.mem_of_mem_filter ht)

/-- Witness for C4: patching the sample store with status In Process
keeps every stored status within the enumerated set. -/
theorem status_received_and_enum_preserved_witness :
    statusesOk (adminPatchSuggestion 1 patchInProcess 7 sampleStore).2 :=
  status_received_and_enum_preserved.2.2.1 1 patchInProcess 7 sampleStore
    (by decide) (by unfold statusesOk; decide)

/-- Concatenating successive `drop/take` slices of a fixed list
reconstructs its prefix. -/
theorem pages_join {α : Type} (L : List α) (limit : Nat) :
    ∀ n, (List.range n).flatMap (fun i => (L.drop (i * limit)).take limit)
      = L.take (n * limit)
  | 0 => by simp
  | n + 1 => by
    rw [List.range_succ, List.flatMap_append, pages_join L limit n]
    simp only [List.flatMap_cons, List.flatMap_nil, List.append_nil]
    rw [Nat.succ_mul, List.take_add]

/-- One page of the public resolved listing is a contiguous slice of the
sorted resolved sequence, projected. -/
theorem listResolvedPublic_page (st : Store) (limit : Nat) (h1 : 1 ≤ limit)
    (h2 : limit ≤ 100) (i : Nat) :
    (listResolvedPublic (i + 1) limit st).suggestions
      = (((resolvedSorted st).drop (i * limit)).take limit).map toPublicJSON := by
  unfold listResolvedPublic
  rw [Nat.max_eq_left (Nat.le_add_left 1 i), Nat.max_eq_left h1, Nat.min_eq_left h2]
  dsimp only
  rw [Nat.add_sub_cancel]

/-- C5: over a fixed snapshot, the pages of GET /api/public/resolved
joined in order are exactly the resolved suggestions, sorted most
recently updated first, projected through `toPublicJSON` — a permutation
of the resolved subset (no duplicates, no omissions) — and every element
of any page has status Resolved. -/
theorem resolved_public_pagination (st : Store) (limit n : Nat)
    (h1 : 1 ≤ limit) (h2 : limit ≤ 100)
    (hn : (resolvedSorted st).length ≤ n * limit) :
    ((List.range n).flatMap (fun i => (listResolvedPublic (i + 1) limit st).suggestions))
      = (resolvedSorted st).map toPublicJSON
    ∧ (resolvedSorted st).Perm (st.suggestions.filter (fun s => s.status == "Resolved"))
    ∧ List.Pairwise updGe (resolvedSorted st)
    ∧ (∀ p l v, v ∈ (listResolvedPublic p l st).suggestions → v.status = "Resolved") := by
  refine ⟨?_, ?_, ?_, ?_⟩
  · have hfun : (fun i => (listResolvedPublic (i + 1) limit st).suggestions)
        = fun i => (((resolvedSorted st).drop (i * limit)).take limit).map toPublicJSON :=
      funext (listResolvedPublic_page st limit h1 h2)
    rw [hfun, ← List.map_flatMap, pages_join, List.take_of_length_le hn]
  · exact List.perm_insertionSort _ _
  · exact List.sorted_insertionSort updGe _
  · intro p l v hv
    unfold listResolvedPublic at hv
    obtain ⟨s, hs, hfv⟩ := List.mem_map.mp hv
    subst hfv
    have hs2 : s ∈ resolvedSorted st :=
      List.mem_of_mem_drop (List.mem_of_mem_take hs)
    have hs3 : s ∈ st.suggestions.filter (fun t => t.status == "Resolved") :=
      (List.perm_insertionSort updGe _).mem_iff.mp hs2
    have hst : s.status = "Resolved" := by
      simpa using (List.mem_filter.mp hs3).2
    rw [toPublicJSON_status, hst]

/-- A second resolved suggestion, more recently updated than
`sAnonResolved`, for exercising pagination. -/
def sRes1 : Suggestion :=
  { id := 11, user := none, anonymous := true, category := "infrastructure",
    description := "corridor lights broken", status := "Resolved",
    assignedDepartment := some "Facilities", assignedTo := none,
    actionTaken := some "fixed", media := [], createdAt := 4, updatedAt := 5 }

def resolvedStore : Store :=
  { suggestions := [s1, sAnonResolved, sRes1], departments := [dep1] }

/-- Witness for C5: two pages of size one over the concrete store with two
resolved suggestions reconstruct the full sorted resolved sequence. -/
theorem resolved_public_pagination_witness :
    ((List.range 2).flatMap (fun i => (listResolvedPublic (i + 1) 1 resolvedStore).suggestions))
      = (resolvedSorted resolvedStore).map toPublicJSON :=
  (resolved_public_pagination resolvedStore 1 2 (by decide) (by decide) (by decide)).1

/-- Counterexample for C6: a 9-character description with a valid
category is rejected through the mongoose schema (minlength 10) and the
route's catch-all, producing a 500 response — not the 400 that carries
InvalidArgument rejections in this codebase — though, as the claim says,
nothing is persisted. -/
theorem short_description_fails_500_not_400 :
    createSuggestion body9 none [] 9 5 sampleStore
      = (.err 500 "Failed to create suggestion", sampleStore)
    ∧ (∀ msg, (createSuggestion body9 none [] 9 5 sampleStore).1 ≠ .err 400 msg) := by
  have h : createSuggestion body9 none [] 9 5 sampleStore
      = (.err 500 "Failed to create suggestion", sampleStore) := by decide
  refine ⟨h, ?_⟩
  intro msg hmsg
  rw [h] at hmsg
  simp at hmsg

/-- C6 as amended: with a valid category (and the other optional fields
absent), an absent or empty description fails with 400 (the route's
required-fields check); a non-empty description shorter than 10 or longer
than 5000 characters fails with the generic 500 of the caught schema
ValidationError, persisting nothing; a 10-character description
succeeds. -/
theorem description_length_bounds (body : CreateBody) (user : Option String)
    (files : List Media) (freshId now : Nat) (st : Store)
    (hcat : otruthy body.category = true)
    (hcat2 : CATEGORIES.contains (body.category.getD "") = true)
    (hanon : body.anonymous = none)
    (hdept : body.assignedDepartment = none)
    (hact : body.actionTaken = none) :
    (otruthy body.description = false →
       createSuggestion body user files freshId now st
         = (.err 400 "category and description are required", st))
    ∧ (∀ dsc, body.description = some dsc → dsc ≠ "" →
        (dsc.length < 10 ∨ dsc.length > 5000) →
        createSuggestion body user files freshId now st
          = (.err 500 "Failed to create suggestion", st))
    ∧ (∀ dsc, body.description = some dsc → dsc.length = 10 →
        createSuggestion body user files freshId now st
          = (.ok (toPublicJSON (mkCreatedDoc body user files freshId now)),
             { st with suggestions := st.suggestions ++ [mkCreatedDoc body user files freshId now] })) := by
  have hpa : parseAnonymous body.anonymous = true := by
    rw [hanon]
    decide
  have hc3 : ¬ (¬ parseAnonymous body.anonymous = true ∧ user = none) := by
    rintro ⟨h1, -⟩
    exact h1 hpa
  have hc4 : ¬ (otruthy body.assignedDepartment = true ∧
      findActiveDepartment (body.assignedDepartment.getD "") st = none) := by
    rintro ⟨h1, -⟩
    rw [hdept] at h1
    exact Bool.false_ne_true h1
  have hc5 : ¬ (otruthy body.actionTaken = true ∧ (body.actionTaken.getD "").length > 20000) := by
    rintro ⟨h1, -⟩
    rw [hact] at h1
    exact Bool.false_ne_true h1
  refine ⟨?_, ?_, ?_⟩
  · intro hf
    have hcond : ¬ (otruthy body.category = true ∧ otruthy body.description = true) := by
      rintro ⟨-, h2⟩
      rw [hf] at h2
      exact Bool.false_ne_true h2
    unfold createSuggestion
    rw [if_pos hcond]
  · intro dsc hdsc hne hbad
    have hdt : otruthy body.description = true := by
      rw [hdsc]
      simpa [otruthy] using hne
    unfold createSuggestion
    rw [if_neg (not_not_intro ⟨hcat, hdt⟩), if_neg (not_not_intro hcat2),
      if_neg hc3, if_neg hc4, if_neg hc5, if_pos]
    rw [hdsc]
    exact hbad
  · intro dsc hdsc hlen
    have hne : dsc ≠ "" := by
      intro hcon
      rw [hcon] at hlen
      simp at hlen
    have hdt : otruthy body.description = true := by
      rw [hdsc]
      simpa [otruthy] using hne
    have hlenok : ¬ ((body.description.getD "").length < 10 ∨
        (body.description.getD "").length > 5000) := by
      rw [hdsc]
      simp only [Option.getD_some]
      rw [hlen]
      decide
    unfold createSuggestion
    rw [if_neg (not_not_intro ⟨hcat, hdt⟩), if_neg (not_not_intro hcat2),
      if_neg hc3, if_neg hc4, if_neg hc5, if_neg hlenok]

/-- Witness for C6: a valid 10-character submission succeeds and appends
exactly the created document. -/
theorem description_length_bounds_witness :
    createSuggestion body10 none [] 9 5 sampleStore
      = (.ok (toPublicJSON (mkCreatedDoc body10 none [] 9 5)),
         { sampleStore with suggestions := sampleStore.suggestions ++ [mkCreatedDoc body10 none [] 9 5] }) :=
  (description_length_bounds body10 none [] 9 5 sampleStore (by decide) (by decide)
    rfl rfl rfl).2.2 "abcdefghij" rfl (by decide)

/-- An actionTaken value of 2001 characters. -/
def longAction2001 : String := String.mk (List.replicate 2001 'a')

/-- A patch supplying only that actionTaken value. -/
def patchLongAction : PatchBody :=
  { status := none, category := none, assignedDepartment := none,
    assignedTo := none, actionTaken := some longAction2001 }

/-- C7: the update route rejects an actionTaken of 2001 characters with a
400 — although 2001 is within the 20000-character bound stated by the
claim, by the route's own error message, and by the schema's maxlength —
because the guard at src/routes/index.js line 325 compares against 2000.
The store is left unchanged. -/
theorem actionTaken_2001_rejected_despite_limit :
    adminPatchSuggestion 1 patchLongAction 7 sampleStore
      = (.err 400 "Action taken cannot exceed 20000 characters", sampleStore)
    ∧ longAction2001.length = 2001
    ∧ longAction2001.length ≤ 20000 := by
  have hlen : longAction2001.length = 2001 := by
    show (List.replicate 2001 'a').length = 2001
    rw [List.length_replicate]
  have hne : longAction2001 ≠ "" := by
    intro hcon
    rw [hcon] at hlen
    simp at hlen
  refine ⟨?_, hlen, by rw [hlen]; decide⟩
  have h1 : ¬ (otruthy patchLongAction.status = true ∧
      ¬ STATUSES.contains (patchLongAction.status.getD "") = true) := by
    rintro ⟨hx, -⟩
    exact Bool.false_ne_true hx
  have h2 : ¬ (otruthy patchLongAction.category = true ∧
      ¬ CATEGORIES.contains (patchLongAction.category.getD "") = true) := by
    rintro ⟨hx, -⟩
    exact Bool.false_ne_true hx
  have h3 : otruthy patchLongAction.actionTaken = true ∧
      (patchLongAction.actionTaken.getD "").length > 2000 := by
    constructor
    · simpa [otruthy, patchLongAction] using hne
    · show longAction2001.length > 2000
      rw [hlen]
      decide
  unfold adminPatchSuggestion
  rw [if_neg h1, if_neg h2, if_pos h3]

/-- C8: with otherwise-valid inputs, a non-anonymous submission without a
resolved submitter identity fails with 401 and persists nothing, while
the same submission with an authenticated identity succeeds and the
created suggestion stores that submitter reference. -/
theorem non_anonymous_submission_identity (body : CreateBody) (files : List Media)
    (freshId now : Nat) (st : Store) (uid : String)
    (hcat : otruthy body.category = true)
    (hcat2 : CATEGORIES.contains (body.category.getD "") = true)
    (hdesc : otruthy body.description = true)
    (hanon : parseAnonymous body.anonymous = false)
    (hdept : body.assignedDepartment = none)
    (hact : body.actionTaken = none)
    (hlen : ¬ ((body.description.getD "").length < 10 ∨ (body.description.getD "").length > 5000)) :
    createSuggestion body none files freshId now st
      = (.err 401 "Authentication required for non-anonymous submission", st)
    ∧ createSuggestion body (some uid) files freshId now st
        = (.ok (toPublicJSON (mkCreatedDoc body (some uid) files freshId now)),
           { st with suggestions := st.suggestions ++ [mkCreatedDoc body (some uid) files freshId now] })
    ∧ (mkCreatedDoc body (some uid) files freshId now).user = some uid := by
  have hc4 : ¬ (otruthy body.assignedDepartment = true ∧
      findActiveDepartment (body.assignedDepartment.getD "") st = none) := by
    rintro ⟨h1, -⟩
    rw [hdept] at h1
    exact Bool.false_ne_true h1
  have hc5 : ¬ (otruthy body.actionTaken = true ∧ (body.actionTaken.getD "").length > 20000) := by
    rintro ⟨h1, -⟩
    rw [hact] at h1
    exact Bool.false_ne_true h1
  refine ⟨?_, ?_, ?_⟩
  · unfold createSuggestion
    rw [if_neg (not_not_intro ⟨hcat, hdesc⟩), if_neg (not_not_intro hcat2), if_pos]
    constructor
    · rw [hanon]
      simp
    · rfl
  · unfold createSuggestion
    have hc3 : ¬ (¬ parseAnonymous body.anonymous = true ∧ (some uid : Option String) = none) := by
      rintro ⟨-, h2⟩
      exact Option.noConfusion h2
    rw [if_neg (not_not_intro ⟨hcat, hdesc⟩), if_neg (not_not_intro hcat2),
      if_neg hc3, if_neg hc4, if_neg hc5, if_neg hlen]
  · simp [mkCreatedDoc, hanon]

/-- A non-anonymous submission body with a valid category and a
10-character description. -/
def bodyNonAnon : CreateBody :=
  { category := some "academic", description := some "abcdefghij",
    anonymous := some "false", assignedDepartment := none, actionTaken := none }

/-- Witness for C8 at concrete inputs. -/
theorem non_anonymous_submission_identity_witness :
    createSuggestion bodyNonAnon none [] 9 5 sampleStore
      = (.err 401 "Authentication required for non-anonymous submission", sampleStore)
    ∧ createSuggestion bodyNonAnon (some "u9") [] 9 5 sampleStore
        = (.ok (toPublicJSON (mkCreatedDoc bodyNonAnon (some "u9") [] 9 5)),
           { sampleStore with suggestions := sampleStore.suggestions ++ [mkCreatedDoc bodyNonAnon (some "u9") [] 9 5] })
    ∧ (mkCreatedDoc bodyNonAnon (some "u9") [] 9 5).user = some "u9" :=
  non_anonymous_submission_identity bodyNonAnon [] 9 5 sampleStore "u9"
    (by decide) (by decide) (by decide) (by decide) rfl rfl (by decide)

/-- C9: the admin routes of src/routes/index.js carry no auth middleware,
so a request with no credential at all is executed: the unauthenticated
PATCH updates the suggestion and the unauthenticated department DELETE
deactivates the department — while the unused `requireRole` middleware
would have answered 401 for that same missing credential. -/
theorem admin_routes_ungated :
    adminPatchRoute none 1 patchInProcess 7 sampleStore
      = (.ok (toPublicJSON { s1 with status := "In Process", updatedAt := 7 }),
         { sampleStore with suggestions := [{ s1 with status := "In Process", updatedAt := 7 }, sAnonResolved] })
    ∧ adminDeleteDepartmentRoute none 1 sampleStore
        = (.ok "Department deactivated (has associated suggestions)",
           { sampleStore with departments := [{ dep1 with isActive := false }] })
    ∧ requireRole ["admin"] none = some (401, "Unauthorized") := by
  refine ⟨by decide, by decide, rfl⟩

/-- C10: when the anonymous field is absent or empty the created
suggestion is anonymous and stores no submitter reference; a created
suggestion is non-anonymous only when the request supplied a non-empty
string other than "true" for the field, and any such value does make it
non-anonymous. -/
theorem anonymous_default_true (body : CreateBody) (user : Option String)
    (files : List Media) (freshId now : Nat) (st : Store) (v : Suggestion) (st2 : Store)
    (h : createSuggestion body user files freshId now st = (.ok v, st2)) :
    ((body.anonymous = none ∨ body.anonymous = some "") →
        st2.suggestions = st.suggestions ++ [mkCreatedDoc body user files freshId now]
        ∧ (mkCreatedDoc body user files freshId now).anonymous = true
        ∧ (mkCreatedDoc body user files freshId now).user = none
        ∧ v.user = none)
    ∧ (v.anonymous = false → ∃ a, body.anonymous = some a ∧ a ≠ "" ∧ a ≠ "true")
    ∧ (∀ a, body.anonymous = some a → a ≠ "" → a ≠ "true" →
        (mkCreatedDoc body user files freshId now).anonymous = false) := by
  obtain ⟨hv, hst⟩ := createSuggestion_ok h
  subst hv
  subst hst
  refine ⟨?_, ?_, ?_⟩
  · intro hcase
    have hpa : parseAnonymous body.anonymous = true := by
      rcases hcase with h1 | h1 <;> rw [h1] <;> decide
    refine ⟨rfl, by simp [mkCreatedDoc, hpa], by simp [mkCreatedDoc, hpa], ?_⟩
    exact toPublicJSON_user_of_anonymous _ (by simp [toPublicJSON, mkCreatedDoc, hpa])
  · intro hfalse
    have hpa : parseAnonymous body.anonymous = false := by
      simpa [toPublicJSON, mkCreatedDoc] using hfalse
    cases hba : body.anonymous with
    | none =>
      rw [hba] at hpa
      simp [parseAnonymous] at hpa
    | some a =>
      refine ⟨a, rfl, ?_, ?_⟩
      · intro hcon
        rw [hba, hcon] at hpa
        simp [parseAnonymous] at hpa
      · intro hcon
        rw [hba, hcon] at hpa
        simp [parseAnonymous] at hpa
  · intro a hba hne htrue
    have hpa : parseAnonymous body.anonymous = false := by
      rw [hba]
      simp [parseAnonymous, hne, htrue]
    simp [mkCreatedDoc, hpa]

/-- Witness for C10: the valid submission with the anonymous field absent
creates an anonymous record with no stored submitter. -/
theorem anonymous_default_true_witness :
    (mkCreatedDoc body10 none [] 9 5).anonymous = true
    ∧ (mkCreatedDoc body10 none [] 9 5).user = none := by
  have h := (anonymous_default_true body10 none [] 9 5 sampleStore
    (toPublicJSON (mkCreatedDoc body10 none [] 9 5))
    { sampleStore with suggestions := sampleStore.suggestions ++ [mkCreatedDoc body10 none [] 9 5] }
    (by decide)).1 (Or.inl rfl)
  exact ⟨h.2.1, h.2.2.1⟩

end IctForum
